import Mathlib

/-!
Shallow embedding of the script-runner engine: multi-source script
resolution (`lib/script-loader.js`), the isolated-vm execution driver
(`lib/vm-runner-ivm.js`, configurable-timeout revision), the capability
bridge's HTTP error sanitisation, per-run console tagging, and the
top-level `ScriptRunner.run` entry point (`index.js`).

JavaScript values crossing the boundary are modelled as `Json`;
JavaScript exceptions are modelled as `Except String` carrying the
exact message strings the source constructs.
-/

/-- JSON values as exchanged across the engine boundary
(credentials, guest results, source-object fields). -/
inductive Json where
  | null
  | bool (b : Bool)
  | num (n : Int)
  | str (s : String)
  | arr (elems : List Json)
  | obj (fields : List (String × Json))

deriving instance DecidableEq for Except

/-- JavaScript truthiness of a `Json` value (`!v` in the source checks
falsiness): `null`/`undefined`, `false`, `0` and `""` are falsy. -/
def jsTruthy : Json → Bool
  | .null => false
  | .bool b => b
  | .num n => n != 0
  | .str s => s != ""
  | .arr _ => true
  | .obj _ => true

/-- JavaScript string coercion as used in template literals
(only the `str` case is exercised by the loader's messages). -/
def jsDisplay : Json → String
  | .null => "null"
  | .bool b => cond b "true" "false"
  | .num n => toString n
  | .str s => s
  | .arr _ => ""
  | .obj _ => "[object Object]"

/-- Property access `fields.k` on a source object; an absent property
(JavaScript `undefined`) is modelled as `Json.null` (both are falsy,
and neither is displayed by any reachable message). -/
def getFieldD (fields : List (String × Json)) (k : String) : Json :=
  match fields.find? (fun p => p.1 == k) with
  | some p => p.2
  | none => .null

/-- A script source value as accepted by `ScriptLoader.loadScript`:
a bare string (file path), a tagged object, or any other value. -/
inductive SourceVal where
  | str (s : String)
  | obj (fields : List (String × Json))
  | other

/-- Outcome of the host filesystem stream for one path: the sequence of
`data` chunks followed by `end`, or an `error` event with a message. -/
inductive FileOutcome where
  | chunks (cs : List String)
  | ioError (msg : String)

/-- The host filesystem, keyed by path. -/
def FS : Type := String → FileOutcome

/-- `ScriptLoader.loadFromFile`: buffers every chunk of the read stream
and resolves with their concatenation; a stream error rejects with
`Failed to read file <path>: <message>`. The path argument is a `Json`
value because the `file`-typed object arm of `loadScript` passes the
whole source object here. -/
def loadFromFile (fs : FS) (p : Json) : Except String String :=
  match fs (jsDisplay p) with
  | .chunks cs => .ok (String.join cs)
  | .ioError m => .error ("Failed to read file " ++ jsDisplay p ++ ": " ++ m)

/-- `ScriptLoader.loadFromInline`: returns `source.code` unchanged when
it is a non-empty string, otherwise rejects (`!code || typeof code !==
"string"`). -/
def loadFromInline (fields : List (String × Json)) : Except String String :=
  match getFieldD fields "code" with
  | .str c =>
      if c = "" then .error "Inline source requires code property with string value"
      else .ok c
  | _ => .error "Inline source requires code property with string value"

/-- `ScriptLoader.loadFromS3`: validates that `bucket` and `key` are
truthy, then always rejects with the not-implemented message naming the
requested bucket and key. -/
def loadFromS3 (fields : List (String × Json)) : Except String String :=
  let bucket := getFieldD fields "bucket"
  let key := getFieldD fields "key"
  if jsTruthy bucket && jsTruthy key then
    .error ("S3 reading not implemented yet. Would read from s3://" ++
      jsDisplay bucket ++ "/" ++ jsDisplay key)
  else
    .error "S3 source requires bucket and key"

/-- `ScriptLoader.loadScript`: strings default to the file system; tagged
objects dispatch through the `sources` table, which registers exactly
`file`, `inline` and `s3` (the `database` entry is commented out in the
source), so any other truthy `type` rejects with the unsupported-type
message; everything else is an invalid source format. -/
def loadScript (fs : FS) : SourceVal → Except String String
  | .str s => loadFromFile fs (.str s)
  | .obj fields =>
      let t := getFieldD fields "type"
      if jsTruthy t then
        let ts := jsDisplay t
        if ts = "file" then loadFromFile fs (.obj fields)
        else if ts = "inline" then loadFromInline fields
        else if ts = "s3" then loadFromS3 fields
        else .error ("Unsupported script source type: " ++ ts)
      else .error "Invalid script source format"
  | .other => .error "Invalid script source format"

/-- `sub` occurs as a contiguous substring of `s`. -/
def mentions (s sub : String) : Prop :=
  sub.data <:+: s.data

instance (s sub : String) : Decidable (mentions s sub) :=
  inferInstanceAs (Decidable (sub.data <:+: s.data))

/-- A heap of JavaScript objects held by the host process, addressed by
allocation order. The caller's credentials object lives at one address;
copies made by the driver (`JSON.parse(JSON.stringify(...))`) and the
argument copy transferred into the isolate get fresh addresses. -/
structure Store where
  mem : Nat → Json
  next : Nat

/-- Write the value at an existing address. -/
def Store.write (st : Store) (a : Nat) (v : Json) : Store :=
  { st with mem := fun x => if x = a then v else st.mem x }

/-- Allocate a fresh object holding `v`; returns the new store and the
fresh address. -/
def Store.alloc (st : Store) (v : Json) : Store × Nat :=
  ({ mem := fun x => if x = st.next then v else st.mem x, next := st.next + 1 },
   st.next)

/-- What one invocation of the guest's `run` function does, as observed
at the isolate boundary: how long it takes before settling, whether it
returns a value or throws, and the final value of the argument object it
received (the guest may mutate its copy arbitrarily). -/
inductive GuestOutcome where
  | ret (j : Json)
  | thrown (msg : String)

/-- Behaviour of a guest call: settle time (ms), outcome, and the final
state of the guest's own copy of the credentials argument. -/
structure GuestBehavior where
  duration : Int
  outcome : GuestOutcome
  argAfter : Json

/-- A binding in the guest's global namespace after top-level execution:
either a function (such as `run`) or a plain value. -/
inductive GuestVal where
  | fn (f : Json → GuestBehavior)
  | val (j : Json)

/-- Top-level compilation/execution of resolved source text inside the
isolate, as observed by the driver: either the guest global namespace it
produces, or a compile/top-level error message. The JavaScript engine
itself is outside the repository; drivers below are parameterised over
this oracle. -/
inductive CompileResult where
  | ok (globals : List (String × GuestVal))
  | err (msg : String)

/-- The `typeof globalThis.run === "function"` check followed by taking
the reference: the `run` binding when it exists and is a function. -/
def findRunFn (globals : List (String × GuestVal)) : Option (Json → GuestBehavior) :=
  match globals.find? (fun p => p.1 == "run") with
  | some (_, .fn f) => some f
  | _ => none

/-- Options accepted by the `VMRunnerIvm` constructor; `none` models an
absent property. -/
structure RunnerOptions where
  executionTimeout : Option Int := none
  memoryLimit : Option Int := none

/-- Per-runner configuration resolved by the constructor. -/
structure VMRunnerIvm where
  executionTimeout : Int
  memoryLimit : Int

/-- The `VMRunnerIvm` constructor:
`this.executionTimeout = options.executionTimeout || 300000` and
`this.memoryLimit = options.memoryLimit || 128`. JavaScript `||` takes
the default whenever the supplied value is falsy, i.e. absent or `0`. -/
def VMRunnerIvm.create (o : RunnerOptions) : VMRunnerIvm :=
  { executionTimeout :=
      match o.executionTimeout with
      | some v => if v = 0 then 300000 else v
      | none => 300000,
    memoryLimit :=
      match o.memoryLimit with
      | some v => if v = 0 then 128 else v
      | none => 128 }

/-- The exact message thrown when the compiled script defines no `run`
function. -/
def missingEntryPointMsg : String :=
  "User script must export a \x27run\x27 function as globalThis.run"

/-- The message isolated-vm produces when the configured timeout elapses
before the guest call settles. -/
def timeoutMsg : String := "Script execution timed out."

/-- `VMRunnerIvm.executeRunFunction`: checks for the guest `run`
function (throwing `missingEntryPointMsg` without invoking anything if
it is absent), makes a serialisable host-side copy of the credentials
(`JSON.parse(JSON.stringify(credentials))` — the identity on `Json`
values, at a fresh address), transfers a by-value copy of that into the
isolate (`arguments: copy`), invokes `run` on it bounded by the
configured timeout, and wraps every failure as
`User script execution failed: <message>`. The guest's mutations land
on its in-isolate copy only. -/
def executeRunFunction (globals : List (String × GuestVal)) (timeout : Int)
    (st : Store) (credAddr : Nat) : Except String Json × Store :=
  match findRunFn globals with
  | none => (.error ("User script execution failed: " ++ missingEntryPointMsg), st)
  | some f =>
      let credVal := st.mem credAddr
      let (st1, _hostCopyAddr) := st.alloc credVal
      let (st2, isoArgAddr) := st1.alloc credVal
      let b := f credVal
      let st3 := st2.write isoArgAddr b.argAfter
      if b.duration > timeout then
        (.error ("User script execution failed: " ++ timeoutMsg), st3)
      else
        match b.outcome with
        | .ret j => (.ok j, st3)
        | .thrown m => (.error ("User script execution failed: " ++ m), st3)

/-- `VMRunnerIvm.runScript`: resolve the source (wrapping loader errors
as `Failed to load user script: ...`), compile and execute it at top
level (wrapping engine errors as `Failed to compile/run user script:
...`), then invoke the entry point with the credentials. -/
def VMRunnerIvm.runScript (rs : VMRunnerIvm) (compile : String → CompileResult)
    (fs : FS) (src : SourceVal) (st : Store) (credAddr : Nat) :
    Except String Json × Store :=
  match loadScript fs src with
  | .error m => (.error ("Failed to load user script: " ++ m), st)
  | .ok code =>
      match compile code with
      | .err m => (.error ("Failed to compile/run user script: " ++ m), st)
      | .ok globals => executeRunFunction globals rs.executionTimeout st credAddr

/-- `ScriptRunner.run` (`index.js`): awaits the runner's `runScript`;
its `catch` block logs the failure and re-throws the same error
(`throw error`), so the outcome — success value or escaping exception —
is exactly the runner's. -/
def ScriptRunner.run (rs : VMRunnerIvm) (compile : String → CompileResult)
    (fs : FS) (src : SourceVal) (st : Store) (credAddr : Nat) :
    Except String Json × Store :=
  rs.runScript compile fs src st credAddr

/-- A host-side error as raised by the HTTP client: message plus the
host-only parts (native type name, stack trace) that must never reach
the guest. -/
structure HostError where
  message : String
  name : String
  stack : String

/-- Outcome of one host HTTP request. -/
inductive HttpOutcome where
  | ok (data : Json)
  | fail (e : HostError)

/-- The error value surfaced to the guest by a capability call: the
optional fields record which parts of the host error crossed the
boundary (`none` = dropped by sanitisation). -/
structure GuestError where
  message : String
  hostTypeName : Option String
  hostStack : Option String
deriving DecidableEq

/-- `VMRunnerIvm.createHttpGetReference`: delegates to the host client;
on failure it re-raises `new Error(error.message)` — a fresh generic
error carrying only the host message, not the host error's native type
or stack. -/
def createHttpGetReference (client : String → Json → HttpOutcome)
    (url : String) (opts : Json) : Except GuestError Json :=
  match client url opts with
  | .ok d => .ok d
  | .fail e => .error { message := e.message, hostTypeName := none, hostStack := none }

/-- `VMRunnerIvm.createHttpPostReference`: same sanitisation for POST. -/
def createHttpPostReference (client : String → Json → Json → HttpOutcome)
    (url : String) (body : Json) (opts : Json) : Except GuestError Json :=
  match client url body opts with
  | .ok d => .ok d
  | .fail e => .error { message := e.message, hostTypeName := none, hostStack := none }

/-- The process-wide `console.log` binding: either the original function
or a patched wrapper that prepends a run's sandbox tag and then calls
the function it captured. -/
inductive ConsoleFn where
  | original
  | tagged (executionId : String) (inner : ConsoleFn)
deriving DecidableEq

/-- What a call to the current `console.log` binding writes for one
line of arguments. -/
def renderLine : ConsoleFn → String → String
  | .original, line => line
  | .tagged id inner, line => renderLine inner ("[sandbox-" ++ id ++ "] " ++ line)

/-- Process-wide logging state: the current `console.log` binding and
the lines written so far. -/
structure ConsoleState where
  consoleLog : ConsoleFn
  output : List String
deriving DecidableEq

/-- Invoke the current `console.log` binding on one line. -/
def callConsoleLog (st : ConsoleState) (line : String) : ConsoleState :=
  { st with output := st.output ++ [renderLine st.consoleLog line] }

/-- The line `logger.info(...args)` passes to `console.log`
(`ScriptHelpers`: `console.log("[sandbox] i", ...args)`). -/
def loggerInfoLine (m : String) : String := "[sandbox] i " ++ m

/-- First step of the `_logInfo` reference (`injectHelpers`): capture
the current `console.log` and replace it with a wrapper that prepends
this run's sandbox tag. -/
def logInfoPatched (id : String) (st : ConsoleState) : ConsoleState :=
  { st with consoleLog := .tagged id st.consoleLog }

/-- The whole `_logInfo` body: patch `console.log`, call `logger.info`,
then restore the captured original. Runs synchronously, so the three
steps are never interleaved with another run. -/
def execLogInfo (id m : String) (st : ConsoleState) : ConsoleState :=
  { callConsoleLog (logInfoPatched id st) (loggerInfoLine m) with
      consoleLog := st.consoleLog }

/-- The sequence of process-wide logging states `_logInfo` passes
through: after the patch, after the `logger.info` call, after the
restore. -/
def logInfoStates (id m : String) (st : ConsoleState) : List ConsoleState :=
  [logInfoPatched id st,
   callConsoleLog (logInfoPatched id st) (loggerInfoLine m),
   execLogInfo id m st]

/-- Any interleaving of completed guest `logger.info` calls from
different runs: each `(executionId, message)` event is one atomic
synchronous `_logInfo` call (there is no await point inside it). -/
def execCalls : List (String × String) → ConsoleState → ConsoleState
  | [], st => st
  | c :: rest, st => execCalls rest (execLogInfo c.1 c.2 st)

/-- Property access `j.k` on a guest JSON value. -/
def jsGetField (j : Json) (k : String) : Json :=
  match j with
  | .obj fields => getFieldD fields k
  | _ => .null

/-- The Scenario A inline source text: a top-level `run` function
declaration, which script-level execution binds on `globalThis`. -/
def scenarioACode : String :=
  "function run(credentials) \x7b return \x7bsuccess: true, data: credentials.x * 2\x7d; \x7d"

/-- The JavaScript engine's semantics for the Scenario A guest `run`
function: returns `{success: true, data: credentials.x * 2}` without
touching its argument; it settles immediately. Only numeric `x` is
invoked by the development. -/
def scenarioARun : Json → GuestBehavior := fun creds =>
  { duration := 0,
    outcome := .ret (.obj [("success", .bool true),
      ("data",
        match jsGetField creds "x" with
        | .num n => .num (n * 2)
        | _ => .null)]),
    argAfter := creds }

/-- Compilation oracle for the Scenario A run: top-level execution of
`scenarioACode` binds the global `run` function; any other text is not
modelled. -/
def scenarioACompile : String → CompileResult := fun code =>
  if code = scenarioACode then .ok [("run", .fn scenarioARun)]
  else .err "unmodelled script"

/-- A store holding the caller's credentials object `{x: 21}` at
address `0`. -/
def scenarioAStore : Store :=
  { mem := fun a => if a = 0 then .obj [("x", .num 21)] else .null, next := 1 }

/-- The s3 source object of Scenario B: `{type:"s3", bucket:"b", key:"k"}`. -/
def s3SourceBK : SourceVal :=
  .obj [("type", .str "s3"), ("bucket", .str "b"), ("key", .str "k")]

/-- The database source object used in the examples:
`{type:"database", scriptId:"jamf-fetcher-v1"}`. -/
def databaseSource : SourceVal :=
  .obj [("type", .str "database"), ("scriptId", .str "jamf-fetcher-v1")]

/-- C9: running the inline Scenario A source (`run` doubling
`credentials.x`) with credentials `{x: 21}` produces the result
`{success: true, data: 42}`. -/
theorem c9_scenario_a :
    (ScriptRunner.run (VMRunnerIvm.create {}) scenarioACompile
        (fun _ => .ioError "unused")
        (.obj [("type", .str "inline"), ("code", .str scenarioACode)])
        scenarioAStore 0).1 =
      .ok (.obj [("success", .bool true), ("data", .num 42)]) := by
  rfl

/-- C4: when the compiled script's global namespace has no function
named `run`, the run fails with the missing-entry-point error for any
credentials (any store and address), and the store is returned
untouched — no entry-point invocation is attempted and no partial
result is produced. -/
theorem c4_missing_entry_point (globals : List (String × GuestVal))
    (timeout : Int) (st : Store) (credAddr : Nat)
    (h : findRunFn globals = none) :
    executeRunFunction globals timeout st credAddr =
      (.error ("User script execution failed: " ++ missingEntryPointMsg), st) := by
  unfold executeRunFunction
  rw [h]

theorem c4_witness :
    executeRunFunction [("helper", GuestVal.val .null)] 300000 scenarioAStore 0 =
      (.error ("User script execution failed: " ++ missingEntryPointMsg),
       scenarioAStore) :=
  c4_missing_entry_point [("helper", GuestVal.val .null)] 300000 scenarioAStore 0 rfl

/-- C5: whenever a host HTTP capability call fails, the error re-raised
to the guest is the sanitized message-only error: it carries the host
error's message and neither its native type name nor its stack trace. -/
theorem c5_http_errors_sanitized (getClient : String → Json → HttpOutcome)
    (postClient : String → Json → Json → HttpOutcome)
    (url : String) (body opts : Json) (e e' : HostError)
    (hg : getClient url opts = .fail e)
    (hp : postClient url body opts = .fail e') :
    createHttpGetReference getClient url opts =
      .error { message := e.message, hostTypeName := none, hostStack := none } ∧
    createHttpPostReference postClient url body opts =
      .error { message := e'.message, hostTypeName := none, hostStack := none } := by
  unfold createHttpGetReference createHttpPostReference
  rw [hg, hp]
  exact ⟨rfl, rfl⟩

theorem c5_witness :
    createHttpGetReference
        (fun _ _ => .fail ⟨"connect ECONNREFUSED", "AxiosError", "at host frame"⟩)
        "http://x" .null =
      .error { message := "connect ECONNREFUSED", hostTypeName := none,
               hostStack := none } ∧
    createHttpPostReference
        (fun _ _ _ => .fail ⟨"socket hang up", "AxiosError", "at host frame"⟩)
        "http://x" .null .null =
      .error { message := "socket hang up", hostTypeName := none,
               hostStack := none } :=
  c5_http_errors_sanitized
    (fun _ _ => .fail ⟨"connect ECONNREFUSED", "AxiosError", "at host frame"⟩)
    (fun _ _ _ => .fail ⟨"socket hang up", "AxiosError", "at host frame"⟩)
    "http://x" .null .null
    ⟨"connect ECONNREFUSED", "AxiosError", "at host frame"⟩
    ⟨"socket hang up", "AxiosError", "at host frame"⟩ rfl rfl

/-- C7: resolution of the implemented variants is content-faithful —
inline resolution returns exactly the source's code string, and file
resolution returns the concatenation of every chunk the stream
delivered (the complete file contents, nothing truncated). -/
theorem c7_resolve_roundtrip :
    (∀ (fields : List (String × Json)) (c : String),
        getFieldD fields "code" = .str c → c ≠ "" →
        loadFromInline fields = .ok c) ∧
    (∀ (fs : FS) (p : Json) (cs : List String),
        fs (jsDisplay p) = .chunks cs →
        loadFromFile fs p = .ok (String.join cs)) := by
  constructor
  · intro fields c h hne
    unfold loadFromInline
    rw [h]
    simp [hne]
  · intro fs p cs h
    unfold loadFromFile
    rw [h]

theorem c7_witness :
    loadFromInline [("code", .str "abc")] = .ok "abc" ∧
    loadFromFile (fun _ => .chunks ["ab", "cd"]) (.str "a.js") =
      .ok (String.join ["ab", "cd"]) :=
  ⟨c7_resolve_roundtrip.1 [("code", .str "abc")] "abc" rfl (by decide),
   c7_resolve_roundtrip.2 (fun _ => .chunks ["ab", "cd"]) (.str "a.js")
     ["ab", "cd"] rfl⟩

/-- C10: an s3-tagged source with a missing or falsy `bucket` or `key`
fails with the field-validation error `S3 source requires bucket and
key`; the not-implemented failure naming the bucket and key is produced
exactly when both fields are truthy. -/
theorem c10_s3_field_validation (fields : List (String × Json)) :
    ((jsTruthy (getFieldD fields "bucket") = false ∨
        jsTruthy (getFieldD fields "key") = false) →
      loadFromS3 fields = .error "S3 source requires bucket and key") ∧
    (jsTruthy (getFieldD fields "bucket") = true →
      jsTruthy (getFieldD fields "key") = true →
      loadFromS3 fields =
        .error ("S3 reading not implemented yet. Would read from s3://" ++
          jsDisplay (getFieldD fields "bucket") ++ "/" ++
          jsDisplay (getFieldD fields "key"))) := by
  unfold loadFromS3
  constructor
  · intro h
    rcases h with h | h <;> simp [h]
  · intro hb hk
    simp [hb, hk]

theorem c10_witness :
    loadFromS3 [("type", .str "s3"), ("bucket", .str "b")] =
      .error "S3 source requires bucket and key" ∧
    loadFromS3 [("type", .str "s3"), ("bucket", .str "b"), ("key", .str "k")] =
      .error ("S3 reading not implemented yet. Would read from s3://" ++
        jsDisplay (getFieldD [("type", .str "s3"), ("bucket", .str "b"),
          ("key", .str "k")] "bucket") ++ "/" ++
        jsDisplay (getFieldD [("type", .str "s3"), ("bucket", .str "b"),
          ("key", .str "k")] "key")) :=
  ⟨(c10_s3_field_validation [("type", .str "s3"), ("bucket", .str "b")]).1
      (Or.inr (by decide)),
   (c10_s3_field_validation [("type", .str "s3"), ("bucket", .str "b"),
      ("key", .str "k")]).2 (by decide) (by decide)⟩

/-- C1 counterexample: for the Scenario B s3 source, `ScriptRunner.run`
does not yield an `ExecutionResult` value — the failure escapes as an
exception (an `Except.error` carrying the wrapped loader message), not
as a returned `{success: false, error, timestamp}` object. -/
theorem c1_counterexample :
    (ScriptRunner.run (VMRunnerIvm.create {}) scenarioACompile
        (fun _ => .ioError "unused") s3SourceBK scenarioAStore 0).1 =
      .error ("Failed to load user script: " ++
        "S3 reading not implemented yet. Would read from s3://b/k") ∧
    ((ScriptRunner.run (VMRunnerIvm.create {}) scenarioACompile
        (fun _ => .ioError "unused") s3SourceBK scenarioAStore 0).1).isOk = false :=
  ⟨rfl, rfl⟩

/-- The escaping error is one of the three stage-wrapped messages the
driver constructs: load failure, compile/top-level failure, or
entry-point execution failure (missing `run`, guest throw, timeout). -/
def stageWrappedError (m : String) : Prop :=
  (∃ s, m = "Failed to load user script: " ++ s) ∨
  (∃ s, m = "Failed to compile/run user script: " ++ s) ∨
  (∃ s, m = "User script execution failed: " ++ s)

/-- C1 amended: for every source, credentials and configuration, when
`ScriptRunner.run` does not return the guest's value it raises an
exception whose message is stage-classified by one of the driver's
three wrapping prefixes; the exception escapes to the caller (re-thrown
by `index.js`) rather than being converted to a
`{success: false, error, timestamp}` result. -/
theorem c1_run_failures_stage_wrapped (rs : VMRunnerIvm)
    (compile : String → CompileResult) (fs : FS) (src : SourceVal)
    (st : Store) (credAddr : Nat) (m : String)
    (h : (ScriptRunner.run rs compile fs src st credAddr).1 = .error m) :
    stageWrappedError m := by
  cases hl : loadScript fs src with
  | error s =>
      simp only [ScriptRunner.run, VMRunnerIvm.runScript, hl,
        Except.error.injEq] at h
      exact Or.inl ⟨s, h.symm⟩
  | ok code =>
      cases hc : compile code with
      | err s =>
          simp only [ScriptRunner.run, VMRunnerIvm.runScript, hl, hc,
            Except.error.injEq] at h
          exact Or.inr (Or.inl ⟨s, h.symm⟩)
      | ok globals =>
          cases hf : findRunFn globals with
          | none =>
              simp only [ScriptRunner.run, VMRunnerIvm.runScript,
                executeRunFunction, hl, hc, hf, Except.error.injEq] at h
              exact Or.inr (Or.inr ⟨missingEntryPointMsg, h.symm⟩)
          | some f =>
              simp only [ScriptRunner.run, VMRunnerIvm.runScript,
                executeRunFunction, hl, hc, hf] at h
              split at h
              · simp only [Except.error.injEq] at h
                exact Or.inr (Or.inr ⟨timeoutMsg, h.symm⟩)
              · split at h
                · simp at h
                · simp only [Except.error.injEq] at h
                  exact Or.inr (Or.inr ⟨_, h.symm⟩)

theorem c1_witness :
    stageWrappedError ("Failed to load user script: " ++
      "S3 reading not implemented yet. Would read from s3://b/k") :=
  c1_run_failures_stage_wrapped (VMRunnerIvm.create {}) scenarioACompile
    (fun _ => .ioError "unused") s3SourceBK scenarioAStore 0
    ("Failed to load user script: " ++
      "S3 reading not implemented yet. Would read from s3://b/k") rfl

/-- C2: the caller's credentials object is never mutated by a run: for
every compilation oracle (hence every guest behaviour, including one
that rewrites its whole argument), filesystem, source and
configuration, the value stored at the caller's credentials address is
the same after the run as before. The driver only reads that address;
the serialisable copy and the in-isolate argument copy live at fresh
addresses. -/
theorem c2_credentials_not_mutated (rs : VMRunnerIvm)
    (compile : String → CompileResult) (fs : FS) (src : SourceVal)
    (st : Store) (credAddr : Nat) (h : credAddr < st.next) :
    ((ScriptRunner.run rs compile fs src st credAddr).2).mem credAddr =
      st.mem credAddr := by
  have h1 : credAddr ≠ st.next := by omega
  have h2 : credAddr ≠ st.next + 1 := by omega
  cases hl : loadScript fs src with
  | error m => simp [ScriptRunner.run, VMRunnerIvm.runScript, hl]
  | ok code =>
      cases hc : compile code with
      | err m => simp [ScriptRunner.run, VMRunnerIvm.runScript, hl, hc]
      | ok globals =>
          cases hf : findRunFn globals with
          | none =>
              simp [ScriptRunner.run, VMRunnerIvm.runScript,
                executeRunFunction, hl, hc, hf]
          | some f =>
              simp only [ScriptRunner.run, VMRunnerIvm.runScript,
                executeRunFunction, hl, hc, hf, Store.alloc, Store.write]
              split
              · simp [h1, h2]
              · split <;> simp [h1, h2]

theorem c2_witness :
    ((ScriptRunner.run (VMRunnerIvm.create {}) scenarioACompile
        (fun _ => .ioError "unused")
        (.obj [("type", .str "inline"), ("code", .str scenarioACode)])
        scenarioAStore 0).2).mem 0 = scenarioAStore.mem 0 :=
  c2_credentials_not_mutated (VMRunnerIvm.create {}) scenarioACompile
    (fun _ => .ioError "unused")
    (.obj [("type", .str "inline"), ("code", .str scenarioACode)])
    scenarioAStore 0 (by decide)

/-- C3 counterexample: resolving the database source
`{type:"database", scriptId:"jamf-fetcher-v1"}` fails with the
unsupported-type error (the `sources` table has no `database` entry),
whose message does not mention the script id — contradicting the claim
that resolution of a DatabaseRef always fails with a not-implemented
error naming the specific unresolved reference. -/
theorem c3_counterexample :
    loadScript (fun _ => .ioError "unused") databaseSource =
      .error "Unsupported script source type: database" ∧
    ¬ mentions "Unsupported script source type: database" "jamf-fetcher-v1" :=
  ⟨by decide, by decide⟩

/-- C3 amended: an s3 source whose `bucket` and `key` are non-empty
strings always resolves to the not-implemented error naming that bucket
and key (and never to content), while a database source always resolves
to the unsupported-type error `Unsupported script source type:
database`, which names the type but not the script id. -/
theorem c3_remote_source_errors :
    (∀ (fs : FS) (fields : List (String × Json)) (b k : String),
      getFieldD fields "type" = .str "s3" →
      getFieldD fields "bucket" = .str b → b ≠ "" →
      getFieldD fields "key" = .str k → k ≠ "" →
      loadScript fs (.obj fields) =
        .error ("S3 reading not implemented yet. Would read from s3://" ++
          b ++ "/" ++ k) ∧
      mentions ("S3 reading not implemented yet. Would read from s3://" ++
        b ++ "/" ++ k) b ∧
      mentions ("S3 reading not implemented yet. Would read from s3://" ++
        b ++ "/" ++ k) k) ∧
    (∀ (fs : FS) (fields : List (String × Json)),
      getFieldD fields "type" = .str "database" →
      loadScript fs (.obj fields) =
        .error "Unsupported script source type: database") := by
  constructor
  · intro fs fields b k hty hb hbne hk hkne
    refine ⟨?_, ?_, ?_⟩
    · simp [loadScript, hty, jsTruthy, jsDisplay, loadFromS3, hb, hk,
        bne_iff_ne, hbne, hkne]
    · exact ⟨("S3 reading not implemented yet. Would read from s3://").data,
        ("/" ++ k).data, by simp [String.data_append]⟩
    · exact ⟨("S3 reading not implemented yet. Would read from s3://" ++ b ++
        "/").data, [], by simp [String.data_append]⟩
  · intro fs fields hty
    simp [loadScript, hty, jsTruthy, jsDisplay]

theorem c3_witness :
    (loadScript (fun _ => .ioError "unused") s3SourceBK =
      .error ("S3 reading not implemented yet. Would read from s3://" ++
        "b" ++ "/" ++ "k") ∧
     mentions ("S3 reading not implemented yet. Would read from s3://" ++
        "b" ++ "/" ++ "k") "b" ∧
     mentions ("S3 reading not implemented yet. Would read from s3://" ++
        "b" ++ "/" ++ "k") "k") ∧
    loadScript (fun _ => .ioError "unused") databaseSource =
      .error "Unsupported script source type: database" :=
  ⟨c3_remote_source_errors.1 (fun _ => .ioError "unused")
      [("type", .str "s3"), ("bucket", .str "b"), ("key", .str "k")]
      "b" "k" rfl rfl (by decide) rfl (by decide),
   c3_remote_source_errors.2 (fun _ => .ioError "unused")
      [("type", .str "database"), ("scriptId", .str "jamf-fetcher-v1")] rfl⟩

/-- C6 counterexample: a caller-supplied `executionTimeout` of `0` is
not used — `options.executionTimeout || 300000` discards the falsy
supplied value and the runner keeps the 300000 ms default, so supplied
configuration values are not always used. -/
theorem c6_counterexample :
    (VMRunnerIvm.create { executionTimeout := some 0 }).executionTimeout =
      300000 ∧
    (VMRunnerIvm.create { executionTimeout := some 0 }).executionTimeout ≠ 0 :=
  ⟨rfl, by decide⟩

/-- C6 amended: with no configuration (or a falsy `0`), the runner uses
the 300000 ms execution timeout and 128 MB memory limit; a supplied
nonzero `executionTimeout` or `memoryLimit` is used instead. -/
theorem c6_timeout_memory_config (o : RunnerOptions) :
    ((o.executionTimeout = none ∨ o.executionTimeout = some 0) →
        (VMRunnerIvm.create o).executionTimeout = 300000) ∧
    (∀ v, o.executionTimeout = some v → v ≠ 0 →
        (VMRunnerIvm.create o).executionTimeout = v) ∧
    ((o.memoryLimit = none ∨ o.memoryLimit = some 0) →
        (VMRunnerIvm.create o).memoryLimit = 128) ∧
    (∀ v, o.memoryLimit = some v → v ≠ 0 →
        (VMRunnerIvm.create o).memoryLimit = v) := by
  refine ⟨?_, ?_, ?_, ?_⟩
  · rintro (h | h) <;> simp [VMRunnerIvm.create, h]
  · intro v h hne
    simp [VMRunnerIvm.create, h, hne]
  · rintro (h | h) <;> simp [VMRunnerIvm.create, h]
  · intro v h hne
    simp [VMRunnerIvm.create, h, hne]

/-- A concrete caller configuration with both options supplied. -/
def sampleOptions : RunnerOptions :=
  { executionTimeout := some 5000, memoryLimit := some 256 }

theorem c6_witness :
    (VMRunnerIvm.create {}).executionTimeout = 300000 ∧
    (VMRunnerIvm.create {}).memoryLimit = 128 ∧
    (VMRunnerIvm.create sampleOptions).executionTimeout = 5000 ∧
    (VMRunnerIvm.create sampleOptions).memoryLimit = 256 :=
  ⟨(c6_timeout_memory_config {}).1 (Or.inl rfl),
   (c6_timeout_memory_config {}).2.2.1 (Or.inl rfl),
   (c6_timeout_memory_config sampleOptions).2.1 5000 rfl (by decide),
   (c6_timeout_memory_config sampleOptions).2.2.2 256 rfl (by decide)⟩

/-- C8 counterexample: a guest `logger.info` call does mutate
process-wide logging state — the intermediate state reached by
`_logInfo` (right after the patch) rebinds the process-wide
`console.log` to the run-tagged wrapper, so the binding differs from
the original during the call. -/
theorem c8_counterexample :
    (logInfoPatched "a1b2c3d4e" ⟨.original, []⟩).consoleLog ≠
      (ConsoleState.mk .original []).consoleLog ∧
    logInfoPatched "a1b2c3d4e" ⟨.original, []⟩ ∈
      logInfoStates "a1b2c3d4e" "hello" ⟨.original, []⟩ := by
  exact ⟨by decide, by decide⟩

/-- Running any sequence of atomic `_logInfo` calls from the pristine
console state leaves `console.log` at the original binding and emits
each line tagged with its own call's execution id. -/
theorem execCalls_from_original (calls : List (String × String))
    (out : List String) :
    execCalls calls ⟨.original, out⟩ =
      ⟨.original,
       out ++ calls.map
         (fun c => "[sandbox-" ++ c.1 ++ "] " ++ loggerInfoLine c.2)⟩ := by
  induction calls generalizing out with
  | nil => simp [execCalls]
  | cons c rest ih =>
      simp [execCalls, execLogInfo, logInfoPatched, callConsoleLog,
        renderLine, ih]

/-- C8 amended: per-run log tagging works by briefly mutating the
process-wide `console.log` (patch, log, restore inside one synchronous
block); the original binding is restored before each call returns, and
for any interleaving of completed logger calls from concurrent runs
every emitted line carries its own run's execution-id tag — no run's
tag leaks into another's output. -/
theorem c8_tagging_isolated_per_run (calls : List (String × String)) :
    execCalls calls ⟨.original, []⟩ =
      ⟨.original,
       calls.map (fun c => "[sandbox-" ++ c.1 ++ "] " ++ loggerInfoLine c.2)⟩ :=
  execCalls_from_original calls []
